import Mathlib

/-!
Shallow embedding of the `memory_map` crate (`src/lib.rs`): a memory-mapped
buffer facade `Mmap` over a per-platform backend `MmapInner`.  The facade
(`Protection`, `Mmap`, the `Deref`/`Index`/`AsRef`/`Borrow` forwarding
implementations) is embedded directly from `src/lib.rs`.  The backend
(`posix.rs` / `windows.rs`) is not part of the sources, so its operations are
modelled from the spec, each marked `Modelled from the spec:` in its doc
comment.  Bytes are `Nat` values; a Rust panic is modelled as `none`, and a
fallible `io::Result` as `Except IoError`.
-/

/-- Memory map protection (`Protection` in `src/lib.rs`, lines 46–59):
`Read` (read-only, writes panic), `ReadWrite` (writes reach the file on
flush/drop), `ReadCopy` (copy-on-write, writes never reach the file). -/
inductive Protection where
  | Read
  | ReadWrite
  | ReadCopy
deriving DecidableEq

/-- The `read`/`write` flags of `std::fs::OpenOptions` that the crate sets. -/
structure OpenOptions where
  readFlag : Bool
  writeFlag : Bool
deriving DecidableEq

/-- `fs::OpenOptions::new()`: every flag defaults to `false`. -/
def OpenOptions.new : OpenOptions := ⟨false, false⟩

/-- `OpenOptions::read(b)`: sets the read-access flag. -/
def OpenOptions.read (o : OpenOptions) (b : Bool) : OpenOptions :=
  { o with readFlag := b }

/-- `OpenOptions::write(b)`: sets the write-access flag. -/
def OpenOptions.write (o : OpenOptions) (b : Bool) : OpenOptions :=
  { o with writeFlag := b }

/-- `Protection::write` (`src/lib.rs` lines 72–78): `true` iff the protection
is writable, i.e. `ReadWrite` or `ReadCopy`. -/
def Protection.write (self : Protection) : Bool :=
  match self with
  | .ReadWrite | .ReadCopy => true
  | _ => false

/-- `Protection::as_open_options` (`src/lib.rs` lines 63–69): fresh options
with `read(true)` and `write(self.write())`. -/
def Protection.as_open_options (self : Protection) : OpenOptions :=
  (OpenOptions.new.read true).write self.write

/-- Kind of a `std::io::Error`: the crate distinguishes an invalid-argument
error (`io::ErrorKind::InvalidInput`) from an error propagated from an OS
call. -/
inductive ErrorKind where
  | invalidInput
  | osError
deriving DecidableEq

/-- A `std::io::Error`, reduced to its kind. -/
structure IoError where
  kind : ErrorKind
deriving DecidableEq

/-- Backing kind of a mapping: anonymous memory or a file. -/
inductive Backing where
  | anon
  | file
deriving DecidableEq

/-- Modelled from the spec: the platform backend's mapping handle
(`MmapInner` in `posix.rs`/`windows.rs`, which is not under `src/`).
Spec §3 "Mapping handle": backing kind, protection mode, and the mapped byte
region; the mapped length is the region's length. -/
structure MmapInner where
  prot : Protection
  backing : Backing
  data : List Nat
deriving DecidableEq

/-- Modelled from the spec (§4.3): `MmapInner::len`, the mapped length fixed
at construction; a pure accessor. -/
def MmapInner.len (m : MmapInner) : Nat := m.data.length

/-- Modelled from the spec (§4.1, `MmapInner::anonymous` is not under
`src/`): requires `len > 0`, failing with an invalid-argument error
otherwise; on success an anonymous mapping of exactly `len` all-zero
bytes. -/
def MmapInner.anonymous (len : Nat) (prot : Protection) :
    Except IoError MmapInner :=
  if len = 0 then .error ⟨.invalidInput⟩
  else .ok { prot := prot, backing := .anon, data := List.replicate len 0 }

/-- Modelled from the spec (§4.1, `MmapInner::open` is not under `src/`).
`fileContents` is the filesystem collaborator's answer to opening the file
and reading its length and contents; `osMap` is the outcome of the OS
mapping call, consulted only after the explicit zero-length rejection. -/
def MmapInner.openFile (fileContents : Except IoError (List Nat))
    (osMap : Except IoError Unit) (prot : Protection) :
    Except IoError MmapInner :=
  match fileContents with
  | .error e => .error e
  | .ok contents =>
    if contents.length = 0 then .error ⟨.invalidInput⟩
    else
      match osMap with
      | .error e => .error e
      | .ok _ => .ok { prot := prot, backing := .file, data := contents }

/-- Modelled from the spec (§4.2, `MmapInner::flush` is not under `src/`):
for `ReadCopy` or anonymous mappings a no-op that succeeds; otherwise the
outcome `osSync` of the OS synchronization primitive. -/
def MmapInner.flush (m : MmapInner) (osSync : Except IoError Unit) :
    Except IoError Unit :=
  if m.backing = .anon ∨ m.prot = .ReadCopy then .ok () else osSync

/-- Modelled from the spec (§4.2, `MmapInner::flush_async` is not under
`src/`): same success condition as `flush`, without blocking. -/
def MmapInner.flush_async (m : MmapInner) (osSync : Except IoError Unit) :
    Except IoError Unit :=
  if m.backing = .anon ∨ m.prot = .ReadCopy then .ok () else osSync

/-- Modelled from the spec (§4.3, raw byte-region access, read side): the
mapped memory as a byte region of exactly `len()` bytes. -/
def MmapInner.deref (m : MmapInner) : List Nat := m.data

/-- Modelled from the spec (§4.3, raw byte-region access, mutable side):
mutable access to a `Read` mapping must fail loudly; `none` models the
panic, otherwise the full mutable region. -/
def MmapInner.deref_mut (m : MmapInner) : Option (List Nat) :=
  if m.prot = .Read then none else some m.data

/-- `Mmap` (`src/lib.rs` lines 104–106): the facade owns exactly one backend
handle. -/
structure Mmap where
  inner : MmapInner
deriving DecidableEq

/-- `Mmap::open` (`src/lib.rs` lines 111–113): forwards to the backend's
open and wraps the handle.  (Named `openFile` because `open` is a Lean
keyword.) -/
def Mmap.openFile (fileContents : Except IoError (List Nat))
    (osMap : Except IoError Unit) (prot : Protection) : Except IoError Mmap :=
  (MmapInner.openFile fileContents osMap prot).map fun inner => ⟨inner⟩

/-- `Mmap::anonymous` (`src/lib.rs` lines 116–118): forwards to the
backend's anonymous constructor and wraps the handle. -/
def Mmap.anonymous (len : Nat) (prot : Protection) : Except IoError Mmap :=
  (MmapInner.anonymous len prot).map fun inner => ⟨inner⟩

/-- `Mmap::flush` (`src/lib.rs` lines 125–127): forwards to the backend. -/
def Mmap.flush (m : Mmap) (osSync : Except IoError Unit) :
    Except IoError Unit :=
  m.inner.flush osSync

/-- `Mmap::flush_async` (`src/lib.rs` lines 134–136): forwards to the
backend. -/
def Mmap.flush_async (m : Mmap) (osSync : Except IoError Unit) :
    Except IoError Unit :=
  m.inner.flush_async osSync

/-- `Mmap::len` (`src/lib.rs` lines 139–141): forwards to the backend. -/
def Mmap.len (m : Mmap) : Nat := m.inner.len

/-- `Deref for Mmap` (`src/lib.rs` lines 144–150): `&*self.inner`. -/
def Mmap.deref (m : Mmap) : List Nat := m.inner.deref

/-- `DerefMut for Mmap` (`src/lib.rs` lines 152–156): `&mut *self.inner`. -/
def Mmap.deref_mut (m : Mmap) : Option (List Nat) := m.inner.deref_mut

/-- `AsRef<[u8]> for Mmap` (`src/lib.rs` lines 158–162): `&*self`. -/
def Mmap.as_ref (m : Mmap) : List Nat := m.deref

/-- `AsMut<[u8]> for Mmap` (`src/lib.rs` lines 164–168): `&mut *self`. -/
def Mmap.as_mut (m : Mmap) : Option (List Nat) := m.deref_mut

/-- `Borrow<[u8]> for Mmap` (`src/lib.rs` lines 170–174): `&*self`. -/
def Mmap.borrow (m : Mmap) : List Nat := m.deref

/-- `BorrowMut<[u8]> for Mmap` (`src/lib.rs` lines 176–180):
`&mut *self`. -/
def Mmap.borrow_mut (m : Mmap) : Option (List Nat) := m.deref_mut

/-- Rust `[u8]` single-position indexing: panics (`none`) iff the position
is out of bounds, otherwise the byte at that position. -/
def sliceIndex (s : List Nat) (i : Nat) : Option Nat := s[i]?

/-- Rust `[u8]` indexing by `lo..hi`: panics (`none`) iff `lo > hi` or
`hi > length`, otherwise the sub-slice. -/
def sliceRange (s : List Nat) (lo hi : Nat) : Option (List Nat) :=
  if lo ≤ hi ∧ hi ≤ s.length then some ((s.drop lo).take (hi - lo)) else none

/-- Rust `[u8]` indexing by `..hi`: panics (`none`) iff `hi > length`. -/
def sliceRangeTo (s : List Nat) (hi : Nat) : Option (List Nat) :=
  if hi ≤ s.length then some (s.take hi) else none

/-- Rust `[u8]` indexing by `lo..`: panics (`none`) iff `lo > length`. -/
def sliceRangeFrom (s : List Nat) (lo : Nat) : Option (List Nat) :=
  if lo ≤ s.length then some (s.drop lo) else none

/-- `Index<usize> for Mmap` (`src/lib.rs` lines 182–188):
`&(*self.inner)[index]`. -/
def Mmap.index (m : Mmap) (i : Nat) : Option Nat := sliceIndex m.inner.deref i

/-- `Index<Range<usize>> for Mmap` (`src/lib.rs` lines 196–202): slice
indexing over `&**self`. -/
def Mmap.index_range (m : Mmap) (lo hi : Nat) : Option (List Nat) :=
  sliceRange m.deref lo hi

/-- `Index<RangeTo<usize>> for Mmap` (`src/lib.rs` lines 204–210). -/
def Mmap.index_range_to (m : Mmap) (hi : Nat) : Option (List Nat) :=
  sliceRangeTo m.deref hi

/-- `Index<RangeFrom<usize>> for Mmap` (`src/lib.rs` lines 212–218). -/
def Mmap.index_range_from (m : Mmap) (lo : Nat) : Option (List Nat) :=
  sliceRangeFrom m.deref lo

/-- `Index<RangeFull> for Mmap` (`src/lib.rs` lines 220–226): returns the
whole region (`self`, deref-coerced); total, never fails. -/
def Mmap.index_range_full (m : Mmap) : List Nat := m.deref

/-- `IndexMut<usize> for Mmap` (`src/lib.rs` lines 190–194):
`&mut (*self.inner)[index]`; writing `v` through the returned reference.
Fails (`none`, a panic) if mutable access is refused or `i` is out of
bounds. -/
def Mmap.write_index (m : Mmap) (i : Nat) (v : Nat) : Option Mmap :=
  match m.inner.deref_mut with
  | none => none
  | some d =>
    if i < d.length then some ⟨{ m.inner with data := d.set i v }⟩ else none

/-- `IndexMut<RangeFull> for Mmap` (`src/lib.rs` lines 246–250): returns
`self`, coerced through `DerefMut`. -/
def Mmap.index_mut_range_full (m : Mmap) : Option (List Nat) := m.deref_mut

/-- `std::io::Write for &mut [u8]` as the tests use it: copies
`min(|buf|, |region|)` bytes of `buf` to the front of the region and
returns that count; never writes past the region. -/
def sliceWrite (region buf : List Nat) : List Nat × Nat :=
  let n := min buf.length region.length
  (buf.take n ++ region.drop n, n)

/-- Writing `buf` through the mutable byte-region view at offset `o`:
`(&mut mmap[o..]).write(buf)`, i.e. `IndexMut<RangeFrom>` over `DerefMut`,
then the std slice write, with the view's changes landing back in the
mapping.  Returns the updated mapping and the reported byte count, or
`none` for a panic. -/
def Mmap.write_at (m : Mmap) (o : Nat) (buf : List Nat) :
    Option (Mmap × Nat) :=
  match m.deref_mut with
  | none => none
  | some d =>
    match sliceRangeFrom d o with
    | none => none
    | some view =>
      let r := sliceWrite view buf
      some (⟨{ m.inner with data := d.take o ++ r.1 }⟩, r.2)

/-- A concrete writable anonymous mapping, used by witnesses. -/
def sampleRW : Mmap := ⟨⟨.ReadWrite, .anon, [10, 20, 30]⟩⟩

/-- A concrete read-only mapping, used by witnesses. -/
def sampleRead : Mmap := ⟨⟨.Read, .anon, [1, 2, 3]⟩⟩

/-- Claim C8: for every protection mode the file-open options request read
permission, and request write permission exactly for `ReadWrite` and
`ReadCopy`. -/
theorem open_options_match_protection (p : Protection) :
    (p.as_open_options).readFlag = true ∧
      ((p.as_open_options).writeFlag = true ↔
        (p = .ReadWrite ∨ p = .ReadCopy)) := by
  cases p <;>
    simp [Protection.as_open_options, Protection.write, OpenOptions.new,
      OpenOptions.read, OpenOptions.write]

/-- Claim C1: for every `n > 0`, `Mmap::anonymous(n, ReadWrite)` succeeds,
the resulting mapping has `len() = n`, and each of its `n` bytes initially
reads as zero. -/
theorem anonymous_pos_len_zero_init (n : Nat) (h : 0 < n) :
    ∃ m : Mmap, Mmap.anonymous n .ReadWrite = .ok m ∧ m.len = n ∧
      ∀ i, i < n → m.deref[i]? = some 0 := by
  refine ⟨⟨⟨.ReadWrite, .anon, List.replicate n 0⟩⟩, ?_, ?_, ?_⟩
  · simp [Mmap.anonymous, MmapInner.anonymous, Nat.pos_iff_ne_zero.mp h,
      Except.map]
  · simp [Mmap.len, MmapInner.len]
  · intro i hi
    simp [Mmap.deref, MmapInner.deref, List.getElem?_replicate, hi]

/-- Witness for C1 at `n = 4`. -/
theorem anonymous_pos_len_zero_init_witness :
    0 < 4 ∧ ∃ m : Mmap, Mmap.anonymous 4 .ReadWrite = .ok m ∧ m.len = 4 ∧
      ∀ i, i < 4 → m.deref[i]? = some 0 :=
  ⟨by decide, anonymous_pos_len_zero_init 4 (by decide)⟩

/-- Claim C2: opening a zero-length file fails with an I/O error whose kind
is invalid-input, and the result does not depend on the OS mapping call
(the zero length is rejected explicitly before the OS is consulted); on an
`L`-byte file with `L > 0` the open succeeds with `len() = L`. -/
theorem open_zero_rejected_pos_ok (contents : List Nat) (prot : Protection)
    (osMap : Except IoError Unit) :
    (contents.length = 0 →
      Mmap.openFile (.ok contents) osMap prot = .error ⟨.invalidInput⟩) ∧
    (0 < contents.length →
      ∃ m : Mmap, Mmap.openFile (.ok contents) (.ok ()) prot = .ok m ∧
        m.len = contents.length) := by
  constructor
  · intro h
    simp [Mmap.openFile, MmapInner.openFile, h, Except.map]
  · intro h
    refine ⟨⟨⟨prot, .file, contents⟩⟩, ?_, ?_⟩
    · simp [Mmap.openFile, MmapInner.openFile, Nat.pos_iff_ne_zero.mp h,
        Except.map]
    · simp [Mmap.len, MmapInner.len]

/-- Witness for C2: an empty file is rejected even when the OS mapping call
would fail, and a one-byte file maps with length one. -/
theorem open_zero_rejected_pos_ok_witness :
    Mmap.openFile (.ok []) (.error ⟨.osError⟩) .ReadWrite =
        .error ⟨.invalidInput⟩ ∧
      ∃ m : Mmap, Mmap.openFile (.ok [7]) (.ok ()) .ReadWrite = .ok m ∧
        m.len = [7].length :=
  ⟨(open_zero_rejected_pos_ok [] .ReadWrite (.error ⟨.osError⟩)).1 rfl,
   (open_zero_rejected_pos_ok [7] .ReadWrite (.ok ())).2 (by decide)⟩

/-- Claim C3: for every protection mode, `Mmap::anonymous(0, p)` fails with
an invalid-argument error, a kind distinct from an OS I/O error. -/
theorem anonymous_zero_invalid_arg (p : Protection) :
    Mmap.anonymous 0 p = .error ⟨.invalidInput⟩ ∧
      ErrorKind.invalidInput ≠ ErrorKind.osError := by
  constructor
  · simp [Mmap.anonymous, MmapInner.anonymous, Except.map]
  · decide

/-- Claim C4: for every mapping with `Read` protection, every way of
obtaining mutable access to the byte region fails loudly (`none`, the
panic): `DerefMut`, `AsMut`, `BorrowMut`, `IndexMut<RangeFull>`, index
mutation, and writes through the view.  No branch returns an unchanged
mapping, so the failure is never a silent no-op. -/
theorem read_mut_access_fails (m : Mmap) (h : m.inner.prot = .Read) :
    m.deref_mut = none ∧ m.as_mut = none ∧ m.borrow_mut = none ∧
      m.index_mut_range_full = none ∧ (∀ i v, m.write_index i v = none) ∧
      ∀ o buf, m.write_at o buf = none := by
  have hd : m.deref_mut = none := by
    simp [Mmap.deref_mut, MmapInner.deref_mut, h]
  refine ⟨hd, hd, hd, hd, ?_, ?_⟩
  · intro i v
    simp only [Mmap.write_index]
    rw [show m.inner.deref_mut = none from hd]
  · intro o buf
    simp only [Mmap.write_at]
    rw [show m.deref_mut = none from hd]

/-- Witness for C4 on a concrete read-only mapping. -/
theorem read_mut_access_fails_witness :
    sampleRead.deref_mut = none ∧ sampleRead.write_index 0 5 = none ∧
      sampleRead.write_at 0 [1] = none :=
  ⟨(read_mut_access_fails sampleRead rfl).1,
   (read_mut_access_fails sampleRead rfl).2.2.2.2.1 0 5,
   (read_mut_access_fails sampleRead rfl).2.2.2.2.2 0 [1]⟩

/-- Claim C7: for every anonymous mapping and every `ReadCopy` mapping,
`flush` and `flush_async` are no-ops that succeed regardless of the OS
synchronization outcome. -/
theorem flush_noop_succeeds (m : Mmap) (osSync : Except IoError Unit)
    (h : m.inner.backing = .anon ∨ m.inner.prot = .ReadCopy) :
    m.flush osSync = .ok () ∧ m.flush_async osSync = .ok () := by
  constructor <;>
    simp [Mmap.flush, Mmap.flush_async, MmapInner.flush,
      MmapInner.flush_async, h]

/-- Witness for C7: an anonymous mapping flushes successfully even when the
OS sync primitive would report failure. -/
theorem flush_noop_succeeds_witness :
    sampleRW.flush (.error ⟨.osError⟩) = .ok () ∧
      sampleRW.flush_async (.error ⟨.osError⟩) = .ok () :=
  flush_noop_succeeds sampleRW (.error ⟨.osError⟩) (Or.inl rfl)

/-- Claim C5: for every writable mapping and offset `o < len()`, writing a
buffer longer than `len() - o` through the byte-region view at `o`
succeeds, writes and reports exactly `len() - o` bytes, never writes out of
bounds (the length is unchanged), and leaves the bytes before `o`
unchanged. -/
theorem write_overflow_truncates (m : Mmap) (o : Nat) (buf : List Nat)
    (hw : m.inner.prot ≠ .Read) (ho : o < m.len)
    (hb : m.len - o < buf.length) :
    ∃ m' : Mmap, m.write_at o buf = some (m', m.len - o) ∧ m'.len = m.len ∧
      ∀ i, i < o → m'.deref[i]? = m.deref[i]? := by
  have hL : m.len = m.inner.data.length := rfl
  have hdm : m.deref_mut = some m.inner.data := by
    simp [Mmap.deref_mut, MmapInner.deref_mut, hw]
  have hsr : sliceRangeFrom m.inner.data o = some (m.inner.data.drop o) := by
    simp only [sliceRangeFrom, if_pos (show o ≤ m.inner.data.length by omega)]
  have hn : min buf.length (m.inner.data.drop o).length = m.len - o := by
    simp only [List.length_drop]
    omega
  refine ⟨⟨{ m.inner with
      data := m.inner.data.take o ++ (buf.take (m.len - o) ++
        (m.inner.data.drop o).drop (m.len - o)) }⟩, ?_, ?_, ?_⟩
  · simp only [Mmap.write_at, hdm, hsr, sliceWrite, hn]
  · simp only [Mmap.len, MmapInner.len, List.length_append, List.length_take,
      List.length_drop]
    omega
  · intro i hi
    simp only [Mmap.deref, MmapInner.deref]
    rw [List.getElem?_append_left
      (by simp only [List.length_take]; omega),
      List.getElem?_take_of_lt hi]

/-- Witness for C5: a three-byte writable mapping, offset 1, four-byte
buffer. -/
theorem write_overflow_truncates_witness :
    ∃ m' : Mmap, sampleRW.write_at 1 [7, 8, 9, 11] =
        some (m', sampleRW.len - 1) ∧ m'.len = sampleRW.len ∧
      ∀ i, i < 1 → m'.deref[i]? = sampleRW.deref[i]? :=
  write_overflow_truncates sampleRW 1 [7, 8, 9, 11] (by decide) (by decide)
    (by decide)

/-- Claim C6: single-index and range access with an index or range
exceeding the mapping fail with an out-of-bounds condition (`none`, the
panic), never clamping; in-bounds accesses return exactly the
corresponding bytes of the mapped region. -/
theorem index_bounds_exact (m : Mmap) (i lo hi : Nat) :
    (i < m.len → m.index i = m.deref[i]? ∧ ∃ b, m.index i = some b) ∧
    (m.len ≤ i → m.index i = none) ∧
    (lo ≤ hi → hi ≤ m.len → m.index_range lo hi =
      some ((m.deref.drop lo).take (hi - lo))) ∧
    (m.len < hi → m.index_range lo hi = none) ∧
    (hi < lo → m.index_range lo hi = none) ∧
    (hi ≤ m.len → m.index_range_to hi = some (m.deref.take hi)) ∧
    (m.len < hi → m.index_range_to hi = none) ∧
    (lo ≤ m.len → m.index_range_from lo = some (m.deref.drop lo)) ∧
    (m.len < lo → m.index_range_from lo = none) := by
  have hL : m.len = m.deref.length := rfl
  have hL' : m.len = m.inner.deref.length := rfl
  refine ⟨?_, ?_, ?_, ?_, ?_, ?_, ?_, ?_, ?_⟩
  · intro h
    have hi' : i < m.deref.length := by omega
    exact ⟨rfl, ⟨m.deref[i], List.getElem?_eq_getElem hi'⟩⟩
  · intro h
    exact List.getElem?_eq_none (by omega)
  · intro h1 h2
    simp only [Mmap.index_range, sliceRange]
    rw [if_pos ⟨h1, by omega⟩]
  · intro h
    simp only [Mmap.index_range, sliceRange]
    rw [if_neg (by omega)]
  · intro h
    simp only [Mmap.index_range, sliceRange]
    rw [if_neg (by omega)]
  · intro h
    simp only [Mmap.index_range_to, sliceRangeTo]
    rw [if_pos (by omega)]
  · intro h
    simp only [Mmap.index_range_to, sliceRangeTo]
    rw [if_neg (by omega)]
  · intro h
    simp only [Mmap.index_range_from, sliceRangeFrom]
    rw [if_pos (by omega)]
  · intro h
    simp only [Mmap.index_range_from, sliceRangeFrom]
    rw [if_neg (by omega)]

/-- Witness for C6: out-of-bounds index and ranges on a three-byte mapping
fail. -/
theorem index_bounds_exact_witness :
    sampleRW.index 5 = none ∧ sampleRW.index_range 0 5 = none ∧
      sampleRW.index_range_from 5 = none :=
  ⟨(index_bounds_exact sampleRW 5 0 5).2.1 (by decide),
   (index_bounds_exact sampleRW 5 0 5).2.2.2.1 (by decide),
   (index_bounds_exact sampleRW 5 5 5).2.2.2.2.2.2.2.2 (by decide)⟩

/-- Claim C9: `len()` is the pure length of the region fixed at
construction, and writing through the mutable views — index mutation or a
view write — leaves `len()` unchanged. -/
theorem len_pure_frame (m m' : Mmap) (i v o n : Nat) (buf : List Nat) :
    m.len = m.inner.data.length ∧
      (m.write_index i v = some m' → m'.len = m.len) ∧
      (m.write_at o buf = some (m', n) → m'.len = m.len) := by
  refine ⟨rfl, ?_, ?_⟩
  · intro h
    simp only [Mmap.write_index] at h
    split at h
    · cases h
    · rename_i d hdm
      have hd : d = m.inner.data := by
        simp only [MmapInner.deref_mut] at hdm
        split at hdm
        · cases hdm
        · cases hdm
          rfl
      split at h
      · cases h
        subst hd
        simp [Mmap.len, MmapInner.len]
      · cases h
  · intro h
    simp only [Mmap.write_at] at h
    split at h
    · cases h
    · rename_i d hdm
      have hd : d = m.inner.data := by
        simp only [Mmap.deref_mut, MmapInner.deref_mut] at hdm
        split at hdm
        · cases hdm
        · cases hdm
          rfl
      split at h
      · cases h
      · rename_i view hsr
        have hv : view = d.drop o ∧ o ≤ d.length := by
          simp only [sliceRangeFrom] at hsr
          split at hsr
          · rename_i hle
            cases hsr
            exact ⟨rfl, hle⟩
          · cases hsr
        obtain ⟨hv1, hv2⟩ := hv
        simp only [sliceWrite] at h
        cases h
        subst hv1 hd
        simp only [Mmap.len, MmapInner.len, List.length_append,
          List.length_take, List.length_drop]
        omega

/-- Witness for C9: an index write on a concrete mapping preserves the
length. -/
theorem len_pure_frame_witness :
    (⟨⟨.ReadWrite, .anon, [9, 20, 30]⟩⟩ : Mmap).len = sampleRW.len :=
  (len_pure_frame sampleRW ⟨⟨.ReadWrite, .anon, [9, 20, 30]⟩⟩ 0 9 0 0
    []).2.1 (by decide)

/-- Claim C10: every read-only view (`AsRef`, `Borrow`, `Index<RangeFull>`)
is the `Deref` view, a total function returning exactly `len()` bytes (so
full-range indexing never fails), and every mutable view (`AsMut`,
`BorrowMut`, `IndexMut<RangeFull>`) is the `DerefMut` view, which is the
same full region whenever the protection allows writing. -/
theorem views_agree (m : Mmap) :
    m.as_ref = m.deref ∧ m.borrow = m.deref ∧ m.index_range_full = m.deref ∧
      m.deref.length = m.len ∧ m.as_mut = m.deref_mut ∧
      m.borrow_mut = m.deref_mut ∧ m.index_mut_range_full = m.deref_mut ∧
      m.deref_mut = if m.inner.prot = .Read then none else some m.deref :=
  ⟨rfl, rfl, rfl, rfl, rfl, rfl, rfl, rfl⟩
